import Mathlib

/- Verification development for the pycomplete text-prediction core.

   Embedded components (shallow embedding, translated from the Python source):
   - prediction policy and predictor front end   (src/pycomplete/core/prediction.py)
   - response-stream decoding loop               (src/pycomplete/core/prediction.py)
   - text-field detection / matching             (src/pycomplete/core/text_field.py,
                                                  pycomplete/searcher.py)
   - accessibility-path traversal                (pycomplete/listener.py,
                                                  src/pycomplete/core/text_field.py)
   - debounce / single-flight scheduler          (src/pycomplete/app/predictor_app.py)

   Times are modelled in integer milliseconds; Python floats carry no fractional
   content relevant to any property below. -/

/-- Python str.strip() whitespace characters (the ASCII whitespace set
    space, tab, newline, carriage return, vertical tab, form feed). -/
def pyWhitespaceChar (c : Char) : Bool :=
  c = ' ' || c = '\t' || c = '\n' || c = '\r' || c = Char.ofNat 11 || c = Char.ofNat 12

/-- Python s.strip(): remove leading and trailing whitespace. -/
def pyStrip (s : String) : String :=
  String.mk (((s.toList.dropWhile pyWhitespaceChar).reverse.dropWhile pyWhitespaceChar).reverse)

/-- Python text.endswith(c) for a one-character suffix: true iff the text is
    nonempty and its last character is c. -/
def pyEndsWith (s : String) (c : Char) : Bool :=
  match s.toList.getLast? with
  | none => false
  | some d => d == c

/-- Python text.split(sep) for a one-character separator, on character lists:
    "a b ".split(" ") gives ["a", "b", ""]. -/
def splitOnChar (sep : Char) : List Char → List (List Char)
  | [] => [[]]
  | c :: cs =>
    if c == sep then [] :: splitOnChar sep cs
    else
      match splitOnChar sep cs with
      | [] => [[c]]
      | h :: t => (c :: h) :: t

/-- Python text.split(sep) for a one-character separator, on strings. -/
def pySplit (s : String) (sep : Char) : List String :=
  (splitOnChar sep s.toList).map String.mk

/-- Configuration of LlmPredictor (core/prediction.py lines 31-45):
    trigger character, minimum characters, idle delay (modelled in ms).
    The delimiter is modelled as a single character (the spec's glossary calls
    it a configured character; the application passes " "). -/
structure PredConfig where
  trigger : Char
  minChars : Nat
  idleDelay : Int
deriving Repr, DecidableEq

/-- The values the application passes in predictor_app.py lines 53-59:
    trigger " ", min_chars 3, idle_delay 1.0 s. -/
def defaultPredConfig : PredConfig :=
  { trigger := ' ', minChars := 3, idleDelay := 1000 }

/-- LlmPredictor._should_predict (core/prediction.py lines 122-149).
    Returns (should_predict, trigger_type, reason).  Reason strings follow the
    source, except that the elapsed-seconds interpolation of the idle reason
    is elided (no claim inspects it). -/
def shouldPredict (cfg : PredConfig) (lastInputTime : Int) (text : String) (now : Int) :
    Bool × Option String × String :=
  if text = "" then (false, none, "Empty text")
  else if text.length < cfg.minChars then
    (false, none,
      "Text too short (" ++ toString text.length ++ " < " ++ toString cfg.minChars ++ ")")
  else if pyEndsWith text cfg.trigger then
    (true, some "trigger_char", "Trigger character detected")
  else if cfg.idleDelay ≤ now - lastInputTime then
    (if pyEndsWith text cfg.trigger then (false, none, "No trigger condition met")
     else (true, some "idle_timeout", "Idle timeout"))
  else (false, none, "No trigger condition met")

/-- LlmPredictor._get_prediction_segment (core/prediction.py lines 151-162).
    Trigger-terminated text: split on the trigger, strip each fragment, keep the
    non-empty ones, take the last (the comprehension [s.strip() for s in segments
    if s.strip()] filters and strips in one pass; filtering the stripped images
    is the same list).  Otherwise: strip the final fragment, None if empty. -/
def getPredictionSegment (cfg : PredConfig) (text : String) : Option String :=
  if pyEndsWith text cfg.trigger then
    (((pySplit text cfg.trigger).map pyStrip).filter (fun s => s != "")).getLast?
  else
    let lastSeg := pyStrip (((pySplit text cfg.trigger).getLast?).getD "")
    if lastSeg = "" then none else some lastSeg

/-- The mutable timing state of LlmPredictor: last_input_time, last_text
    (core/prediction.py lines 46-47). -/
structure PredState where
  lastInputTime : Int
  lastText : String
deriving Repr, DecidableEq

/-- Observable outcome of one LlmPredictor.predict call: the PredictionResult
    fields a claim inspects, the trace of segments sent to the network
    (calls), and the predictor state after the call. -/
structure PredictOutcome where
  text : Option String
  triggerType : Option String
  reason : String
  segmentLength : Nat
  calls : List String
  state : PredState
deriving Repr, DecidableEq

/-- LlmPredictor.predict (core/prediction.py lines 54-120).  The network call
    _get_llm_prediction is supplied as an oracle llm (none models the error /
    unavailable paths, which the method converts to "No completion received"
    via the falsy check on the completion). -/
def predict (cfg : PredConfig) (llm : String → Option String)
    (s : PredState) (text : String) (now : Int) : PredictOutcome :=
  let s1 := if text != s.lastText then { lastInputTime := now, lastText := text } else s
  let r := shouldPredict cfg s1.lastInputTime text now
  if r.1 then
    match getPredictionSegment cfg text with
    | none =>
      { text := none, triggerType := r.2.1, reason := "No valid segment found",
        segmentLength := 0, calls := [], state := s1 }
    | some seg =>
      match llm seg with
      | some c =>
        if c != "" then
          { text := some c, triggerType := r.2.1, reason := r.2.2,
            segmentLength := seg.length, calls := [seg], state := s1 }
        else
          { text := none, triggerType := r.2.1, reason := "No completion received",
            segmentLength := seg.length, calls := [seg], state := s1 }
      | none =>
        { text := none, triggerType := r.2.1, reason := "No completion received",
          segmentLength := seg.length, calls := [seg], state := s1 }
  else
    { text := none, triggerType := r.2.1, reason := r.2.2,
      segmentLength := 0, calls := [], state := s1 }

/-- One line of the streamed response body of OllamaPredictor._get_llm_prediction:
    either a decodable JSON chunk (optional response field, done flag defaulting
    to false) or an undecodable fragment. -/
inductive StreamLine
  | chunk (response : Option String) (done : Bool)
  | malformed
deriving Repr, DecidableEq

/-- The accumulation loop of OllamaPredictor._get_llm_prediction
    (core/prediction.py lines 247-256): undecodable lines are skipped with the
    loop continuing, each response field is appended, and a done flag breaks
    after its own chunk has contributed. -/
def accumulateStream : List StreamLine → String
  | [] => ""
  | StreamLine.malformed :: rest => accumulateStream rest
  | StreamLine.chunk r true :: _ => r.getD ""
  | StreamLine.chunk r false :: rest => r.getD "" ++ accumulateStream rest

/-- OllamaPredictor._get_llm_prediction (core/prediction.py lines 213-272):
    a non-200 status yields None; otherwise the accumulated stream text is
    returned stripped of surrounding whitespace. -/
def getLlmPrediction (status : Nat) (lines : List StreamLine) : Option String :=
  if status = 200 then some (pyStrip (accumulateStream lines)) else none

/-- Spec-side definition, from the spec's words: the decodable chunks read until
    (and including) the first one carrying the completion flag, or the whole
    stream if none does. -/
def chunksUntilFlag : List StreamLine → List StreamLine
  | [] => []
  | StreamLine.chunk r true :: _ => [StreamLine.chunk r true]
  | StreamLine.chunk r false :: rest => StreamLine.chunk r false :: chunksUntilFlag rest
  | StreamLine.malformed :: rest => StreamLine.malformed :: chunksUntilFlag rest

/-- Spec-side definition: concatenation of the partial-text fields of the
    decodable chunks of a stream. -/
def concatResponses : List StreamLine → String
  | [] => ""
  | StreamLine.chunk r _ :: rest => r.getD "" ++ concatResponses rest
  | StreamLine.malformed :: rest => concatResponses rest

/-- Abstract pyatspi role identifiers; the claims depend only on their identity. -/
def ROLE_TEXT : Nat := 30

def ROLE_ENTRY : Nat := 31

def ROLE_DOCUMENT_TEXT : Nat := 32

def ROLE_PARAGRAPH : Nat := 33

def ROLE_DOCUMENT_FRAME : Nat := 34

def ROLE_EDITBAR : Nat := 35

def ROLE_TERMINAL : Nat := 36

def ROLE_VIEWPORT : Nat := 37

def ROLE_SCROLL_PANE : Nat := 38

def ROLE_APPLICATION : Nat := 39

/-- TextFieldManager.text_field_roles (core/text_field.py lines 30-41); the same
    set appears in TextFieldSearcher (searcher.py lines 23-35). -/
def textFieldRoles : List Nat :=
  [ROLE_TEXT, ROLE_ENTRY, ROLE_DOCUMENT_TEXT, ROLE_PARAGRAPH, ROLE_DOCUMENT_FRAME,
   ROLE_EDITBAR, ROLE_TERMINAL, ROLE_VIEWPORT, ROLE_SCROLL_PANE, ROLE_APPLICATION]

/-- TextFieldManager.required_interfaces (core/text_field.py lines 43-47). -/
def requiredInterfaces : List String := ["Text", "EditableText", "Component"]

/-- One entry of an accessibility path (TextFieldPath, core/text_field.py lines 9-14). -/
structure PathEntry where
  role : Nat
  name : String
  index : Int
  roleName : String
deriving Repr, DecidableEq

/-- Read-only snapshot of a live accessibility object as the detection code
    queries it: role, the state flags it consults, interface list, name,
    attributes, and the ancestor path its tree walk would produce (the walk
    itself is modelled separately as getObjectPath). -/
structure AtspiObject where
  role : Nat
  enabled : Bool
  visible : Bool
  showing : Bool
  editable : Bool
  readOnly : Bool
  interfaces : List String
  name : String
  attributes : List (String × String)
  path : List PathEntry
deriving Repr, DecidableEq

/-- TextField (core/text_field.py lines 17-23); the searcher's result dict has
    the same fields (searcher.py lines 60-66, 121-128). -/
structure TextField where
  role : Nat
  interfaces : List String
  path : List PathEntry
  name : String
  attributes : List (String × String)
deriving Repr, DecidableEq

/-- TextFieldManager._handle_terminal (core/text_field.py lines 80-90):
    enabled AND visible; the showing state is not consulted here. -/
def handleTerminal (obj : AtspiObject) : Option TextField :=
  if obj.enabled && obj.visible then
    some { role := obj.role, interfaces := obj.interfaces, path := obj.path,
           name := if obj.name = "" then "unnamed" else obj.name, attributes := [] }
  else none

/-- TextFieldManager.is_text_field (core/text_field.py lines 49-78): terminals go
    through _handle_terminal; otherwise role membership, interface subset,
    enabled and visible are all required. -/
def isTextField (obj : AtspiObject) : Option TextField :=
  if obj.role = ROLE_TERMINAL then handleTerminal obj
  else if textFieldRoles.contains obj.role
      && requiredInterfaces.all (fun i => obj.interfaces.contains i)
      && obj.enabled && obj.visible then
    some { role := obj.role, interfaces := obj.interfaces, path := obj.path,
           name := if obj.name = "" then "unnamed" else obj.name,
           attributes := obj.attributes }
  else none

/-- basic_text_interfaces of TextFieldSearcher.is_text_field (searcher.py lines 78-81). -/
def basicTextInterfaces : List String := ["Accessible", "Component"]

/-- Attribute-map lookup (Python dict access attributes.get). -/
def attrLookup (attrs : List (String × String)) (k : String) : Option String :=
  (attrs.find? (fun p => p.1 == k)).map (fun p => p.2)

/-- TextFieldSearcher.is_text_field (searcher.py lines 44-133), decision logic.
    Terminal branch: enabled AND (visible OR showing), interfaces and path
    ignored.  Other roles: the final conjunction of lines 113-119; note the
    computed not_read_only condition is not part of that conjunction. -/
def searcherIsTextField (obj : AtspiObject) : Option TextField :=
  if obj.role = ROLE_TERMINAL then
    if obj.enabled && (obj.visible || obj.showing) then
      some { role := obj.role, interfaces := obj.interfaces, path := obj.path,
             name := if obj.name = "" then "unnamed" else obj.name, attributes := [] }
    else none
  else
    let roleMatch := textFieldRoles.contains obj.role
    let hasBasic := basicTextInterfaces.all (fun i => obj.interfaces.contains i)
    let hasText := obj.interfaces.contains "Text"
    let isEditableCond := obj.editable || obj.interfaces.contains "EditableText"
      || (attrLookup obj.attributes "contenteditable" == some "true")
    if (roleMatch || isEditableCond) && hasBasic
        && (hasText || obj.role == ROLE_TERMINAL)
        && obj.enabled && (obj.visible || obj.showing) then
      some { role := obj.role, interfaces := obj.interfaces, path := obj.path,
             name := if obj.name = "" then "unnamed" else obj.name,
             attributes := obj.attributes }
    else none

/-- A node of the external accessibility tree: the properties the path walk
    reads, plus the parent reference (none at a root). -/
structure TreeNode where
  role : Nat
  name : String
  index : Int
  roleName : String
  parent : Option Nat
deriving Repr, DecidableEq

/-- The while-loop of get_object_path (listener.py lines 47-63) and _get_path
    (core/text_field.py lines 92-107), instrumented with a step budget: the
    source loop has no depth bound, so a run that has not reached a root within
    the budget returns none (the loop is still running). -/
def getPathAux (tree : Nat → TreeNode) : Nat → Nat → Option (List PathEntry)
  | 0, _ => none
  | fuel + 1, cur =>
    let node := tree cur
    let e : PathEntry :=
      { role := node.role, name := node.name, index := node.index, roleName := node.roleName }
    match node.parent with
    | none => some [e]
    | some p => (getPathAux tree fuel p).map (fun rest => e :: rest)

/-- get_object_path / _get_path: the finished walk, reversed to root-to-leaf
    order (path[::-1]). -/
def getObjectPath (tree : Nat → TreeNode) (obj : Nat) (fuel : Nat) :
    Option (List PathEntry) :=
  (getPathAux tree fuel obj).map List.reverse

/-- Completion outcome of the prediction coroutine _async_predict
    (predictor_app.py lines 263-285): a normal return carrying result.text,
    a cancellation, or any other exception. -/
inductive TaskOutcome
  | success (text : Option String)
  | cancelled
  | failed
deriving Repr, DecidableEq

/-- Scheduler-relevant state of TextPredictorApp (predictor_app.py lines 40-45)
    together with the environment pieces needed to observe it: the armed GLib
    timers, the set of created-and-unfinished asyncio tasks, queued done
    callbacks, and ghost traces of dispatches and deliveries.

    Each on_content_changed event consumes one ghost sequence id (the spec's
    PredictionRequest sequence id); an armed debounce timer and the content it
    guards share the id of the arming event, so provenance of a dispatch is
    observable.  The debounce delay computed at arming only determines when the
    host loop fires the timer; firing times are chosen by the environment
    (simulated clock), so the delay value itself is not part of the state. -/
structure Sched where
  lastRequestTime : Int
  pendingContent : Option (Nat × String)
  pendingTimer : Option Nat
  liveTimers : List Nat
  currentTask : Option Nat
  inFlight : List (Nat × String)
  pendingCbs : List TaskOutcome
  processing : Bool
  delivered : List String
  errorsLogged : Nat
  dispatched : List (Nat × String)
  nextId : Nat
deriving Repr, DecidableEq

/-- Initial state (predictor_app.py lines 40-45): last_request_time 0, nothing
    pending, nothing running. -/
def initSched : Sched :=
  { lastRequestTime := 0, pendingContent := none, pendingTimer := none, liveTimers := [],
    currentTask := none, inFlight := [], pendingCbs := [], processing := false,
    delivered := [], errorsLogged := 0, dispatched := [], nextId := 0 }

/-- The guard of predictor_app.py line 209:
    self._current_task and not self._current_task.done();
    a task is not done while it is still in flight. -/
def taskStillRunning (s : Sched) : Bool :=
  match s.currentTask with
  | none => false
  | some tid => s.inFlight.any (fun p => p.1 == tid)

/-- GLib.source_remove of the stored pending timer (predictor_app.py lines 200-206). -/
def cancelPendingTimer (s : Sched) : List Nat :=
  s.liveTimers.filter (fun t => some t != s.pendingTimer)

/-- _debounce_prediction_request (predictor_app.py lines 196-227).  The stored
    timer is always cancelled first; if the current task is unfinished and a
    prediction is processing, the content is dropped (lines 208-212); otherwise
    the content is stored and a fresh timer armed (lines 214-227).  The ghost
    sequence id is consumed either way. -/
def debouncePredictionRequest (s : Sched) (content : String) (_now : Int) : Sched :=
  if taskStillRunning s && s.processing then
    { s with
      liveTimers := cancelPendingTimer s,
      pendingTimer := none,
      nextId := s.nextId + 1 }
  else
    { s with
      liveTimers := s.nextId :: cancelPendingTimer s,
      pendingTimer := some s.nextId,
      pendingContent := some (s.nextId, content),
      nextId := s.nextId + 1 }

/-- _execute_prediction_request (predictor_app.py lines 229-261), run when the
    debounce timer fires.  The Python falsy check on line 232 treats the empty
    string like None; note line 237 sets last_request_time before the
    processing check on line 239. -/
def executePredictionRequest (s : Sched) (now : Int) : Sched :=
  match s.pendingContent with
  | none => { s with pendingTimer := none }
  | some (n, content) =>
    if content == "" then { s with pendingTimer := none }
    else if s.processing then
      { s with
        pendingTimer := none,
        pendingContent := none,
        lastRequestTime := now }
    else
      { s with
        pendingTimer := none,
        pendingContent := none,
        lastRequestTime := now,
        processing := true,
        currentTask := some s.nextId,
        inFlight := (s.nextId, content) :: s.inFlight,
        dispatched := (n, content) :: s.dispatched,
        nextId := s.nextId + 1 }

/-- A live GLib timer fires: the loop removes the one-shot source (the callback
    returns False) and runs _execute_prediction_request. -/
def onTimerFires (s : Sched) (now : Int) : Sched :=
  match s.liveTimers with
  | [] => s
  | _ :: rest => executePredictionRequest { s with liveTimers := rest } now

/-- The in-flight coroutine _async_predict finishes (predictor_app.py lines
    263-285): a successful result with truthy text is delivered to the overlay
    via GLib.idle_add; cancellation and failure deliver nothing.  The task's
    done callback is queued to run on a later pump. -/
def onTaskCompletes (s : Sched) (oc : TaskOutcome) : Sched :=
  match s.inFlight with
  | [] => s
  | _ :: rest =>
    let s1 := { s with inFlight := rest, pendingCbs := s.pendingCbs ++ [oc] }
    match oc with
    | TaskOutcome.success (some t) =>
      if t == "" then s1 else { s1 with delivered := t :: s1.delivered }
    | _ => s1

/-- handle_task_result (predictor_app.py lines 251-260): clears processing;
    a cancelled task is logged at debug level only, any other exception is
    logged as an error. -/
def onDoneCallback (s : Sched) : Sched :=
  match s.pendingCbs with
  | [] => s
  | oc :: rest =>
    { s with
      pendingCbs := rest,
      processing := false,
      errorsLogged := s.errorsLogged + (match oc with | TaskOutcome.failed => 1 | _ => 0) }

/-- The events the host loop can deliver to the scheduler, each atomic
    (single-threaded callback loop, spec section 5). -/
inductive SchedEvent
  | contentChanged (text : String) (now : Int)
  | timerFires (now : Int)
  | taskCompletes (oc : TaskOutcome)
  | doneCallback
deriving Repr, DecidableEq

def schedStep (s : Sched) : SchedEvent → Sched
  | SchedEvent.contentChanged text now => debouncePredictionRequest s text now
  | SchedEvent.timerFires now => onTimerFires s now
  | SchedEvent.taskCompletes oc => onTaskCompletes s oc
  | SchedEvent.doneCallback => onDoneCallback s

def schedRunFrom (s : Sched) (evs : List SchedEvent) : Sched :=
  evs.foldl schedStep s

def schedRun (evs : List SchedEvent) : Sched :=
  schedRunFrom initSched evs

/-- debounce_delay of predictor_app.py line 41 (0.25 s), in milliseconds. -/
def debounceDelayMs : Int := 250

/-- A delimiter-terminated text of sufficient length always takes the
    trigger-character branch of _should_predict. -/
theorem shouldPredict_trigger (cfg : PredConfig) (lastInputTime now : Int) (text : String)
    (h1 : pyEndsWith text cfg.trigger = true) (h2 : cfg.minChars ≤ text.length)
    (h3 : text ≠ "") :
    shouldPredict cfg lastInputTime text now =
      (true, some "trigger_char", "Trigger character detected") := by
  simp [shouldPredict, h1, h3, Nat.not_lt.mpr h2]

/-- C3 (amended): a text of at least min_chars characters that ends with the
    configured delimiter makes _should_predict fire with trigger_type
    "trigger_char" (the delimiter trigger), and the segment is the last fragment
    left after splitting on the delimiter, stripping whitespace from each
    fragment, and discarding fragments empty after stripping; in particular
    "hello world " yields segment "world". -/
theorem delimiter_trigger_fires (cfg : PredConfig) (lastInputTime now : Int) (text : String)
    (h1 : pyEndsWith text cfg.trigger = true) (h2 : cfg.minChars ≤ text.length)
    (h3 : text ≠ "") :
    shouldPredict cfg lastInputTime text now =
      (true, some "trigger_char", "Trigger character detected") ∧
    getPredictionSegment cfg text =
      (((pySplit text cfg.trigger).map pyStrip).filter (fun s => s != "")).getLast? ∧
    getPredictionSegment defaultPredConfig "hello world " = some "world" := by
  refine ⟨shouldPredict_trigger cfg lastInputTime now text h1 h2 h3, ?_, by decide⟩
  simp [getPredictionSegment, h1]

/-- C3 counterexample: at the six-character delimiter-terminated text "ab \tx "
    the code fires with trigger_type "trigger_char", not "delimiter", and the
    segment is "x", not the last nonempty fragment "\tx" (fragments are
    stripped, not merely filtered for emptiness). -/
theorem delimiter_trigger_fires_cex :
    ¬ ((shouldPredict defaultPredConfig 0 "ab \tx " 0).2.1 = some "delimiter") ∧
    ¬ (getPredictionSegment defaultPredConfig "ab \tx " = some "\tx") := by
  constructor <;> decide

/-- Witness for delimiter_trigger_fires at "hello world ". -/
theorem delimiter_trigger_fires_witness :
    shouldPredict defaultPredConfig 0 "hello world " 0 =
      (true, some "trigger_char", "Trigger character detected") :=
  (delimiter_trigger_fires defaultPredConfig 0 0 "hello world "
    (by decide) (by decide) (by decide)).1

/-- Stripping every fragment of an all-whitespace split leaves nothing after
    the emptiness filter. -/
theorem filter_stripped_nil (l : List String) (h : ∀ f ∈ l, pyStrip f = "") :
    ((l.map pyStrip).filter (fun s => s != "")) = [] := by
  induction l with
  | nil => rfl
  | cons a t ih =>
    have ha : pyStrip a = "" := h a (by simp)
    simp only [List.map_cons, List.filter_cons, ha]
    simpa using ih (fun f hf => h f (by simp [hf]))

/-- C10: when _should_predict fires on a delimiter-terminated text all of whose
    delimiter-separated fragments are empty or whitespace-only, segment
    extraction yields nothing, predict returns no completion text with reason
    "No valid segment found", and no segment is ever sent to the LLM oracle. -/
theorem whitespace_segments_no_request (cfg : PredConfig) (llm : String → Option String)
    (s : PredState) (text : String) (now : Int)
    (h1 : pyEndsWith text cfg.trigger = true) (h2 : cfg.minChars ≤ text.length)
    (h3 : text ≠ "") (h4 : ∀ f ∈ pySplit text cfg.trigger, pyStrip f = "") :
    (predict cfg llm s text now).text = none ∧
    (predict cfg llm s text now).reason = "No valid segment found" ∧
    (predict cfg llm s text now).calls = [] := by
  have hseg : getPredictionSegment cfg text = none := by
    simp [getPredictionSegment, h1, filter_stripped_nil _ h4]
  have hsp : ∀ lit : Int, shouldPredict cfg lit text now =
      (true, some "trigger_char", "Trigger character detected") :=
    fun lit => shouldPredict_trigger cfg lit now text h1 h2 h3
  simp [predict, hsp, hseg]

/-- Witness for whitespace_segments_no_request at three spaces. -/
theorem whitespace_segments_no_request_witness :
    (predict defaultPredConfig (fun _ => none) { lastInputTime := 0, lastText := "" } "   " 0).text = none ∧
    (predict defaultPredConfig (fun _ => none) { lastInputTime := 0, lastText := "" } "   " 0).reason = "No valid segment found" ∧
    (predict defaultPredConfig (fun _ => none) { lastInputTime := 0, lastText := "" } "   " 0).calls = [] :=
  whitespace_segments_no_request defaultPredConfig (fun _ => none)
    { lastInputTime := 0, lastText := "" } "   " 0
    (by decide) (by decide) (by decide) (by decide)

/-- The predictor state written back by predict: the timing fields are updated
    exactly when the text differs from the last observed text. -/
theorem predict_state_update (cfg : PredConfig) (llm : String → Option String)
    (s : PredState) (text : String) (now : Int) :
    (predict cfg llm s text now).state =
      (if text != s.lastText then { lastInputTime := now, lastText := text } else s) := by
  simp only [predict]
  repeat' split
  all_goals rfl

/-- C6: the idle clock is content-based: a predict call whose text equals the
    previously observed text leaves last_input_time (the idle clock) unchanged,
    and a call with different text sets it to the current time; last_text
    always tracks the newest observed text. -/
theorem idle_clock_content_based (cfg : PredConfig) (llm : String → Option String)
    (s : PredState) (text : String) (now : Int) :
    (predict cfg llm s text now).state.lastInputTime =
      (if text = s.lastText then s.lastInputTime else now) ∧
    (predict cfg llm s text now).state.lastText =
      (if text = s.lastText then s.lastText else text) := by
  rw [predict_state_update cfg llm s text now]
  by_cases hq : text = s.lastText
  · simp [hq]
  · simp [hq, bne_iff_ne]

/-- The stream-accumulation loop computes exactly the spec-side description:
    partial texts of decodable chunks up to and including the flagged chunk. -/
theorem accumulateStream_eq_spec (lines : List StreamLine) :
    accumulateStream lines = concatResponses (chunksUntilFlag lines) := by
  induction lines with
  | nil => rfl
  | cons l rest ih =>
    cases l with
    | malformed => simp [accumulateStream, chunksUntilFlag, concatResponses, ih]
    | chunk r d =>
      cases d with
      | false => simp [accumulateStream, chunksUntilFlag, concatResponses, ih]
      | true => simp [accumulateStream, chunksUntilFlag, concatResponses]

/-- C9: on a 200 response, the returned completion is the concatenation of the
    partial-text fields of the decodable chunks read until a chunk carries the
    completion flag or the stream ends, trimmed of surrounding whitespace;
    undecodable chunks are skipped and contribute nothing. -/
theorem stream_completion_spec (lines : List StreamLine) :
    getLlmPrediction 200 lines = some (pyStrip (concatResponses (chunksUntilFlag lines))) := by
  unfold getLlmPrediction
  rw [accumulateStream_eq_spec]
  simp

/-- A malformed external accessibility tree: every object (in particular
    object 0) reports itself as its own parent. -/
def cyclicTree : Nat → TreeNode :=
  fun _ =>
    { role := ROLE_APPLICATION, name := "app", index := 0,
      roleName := "application", parent := some 0 }

/-- C5 (code bug): the path walk has no depth bound: on the cyclic external
    tree in which object 0 is its own parent, the loop never finishes within
    any step budget, so no fixed maximum depth (64 or otherwise) is enforced
    and termination is not guaranteed. -/
theorem getPath_diverges_on_cycle (fuel : Nat) :
    getObjectPath cyclicTree 0 fuel = none := by
  have haux : ∀ n : Nat, getPathAux cyclicTree n 0 = none := by
    intro n
    induction n with
    | zero => rfl
    | succ k ih => simp [getPathAux, cyclicTree, ih]
  simp [getObjectPath, haux]

/-- C4 (amended): for a terminal-role object, the core TextFieldManager matches
    iff the object is enabled AND visible (the showing state is not consulted),
    while the capture searcher matches iff enabled AND (visible OR showing);
    in both, the required interfaces and the ancestor path are ignored, so an
    enabled and visible terminal with zero recorded interfaces matches. -/
theorem terminal_role_detection (obj : AtspiObject) (h : obj.role = ROLE_TERMINAL) :
    ((isTextField obj).isSome = (obj.enabled && obj.visible)) ∧
    ((searcherIsTextField obj).isSome = (obj.enabled && (obj.visible || obj.showing))) ∧
    (∀ ifs : List String,
      (isTextField { obj with interfaces := ifs }).isSome = (isTextField obj).isSome) ∧
    (∀ q : List PathEntry,
      (isTextField { obj with path := q }).isSome = (isTextField obj).isSome) := by
  refine ⟨?_, ?_, ?_, ?_⟩
  · rw [isTextField, if_pos h]
    unfold handleTerminal
    cases hb : (obj.enabled && obj.visible) <;> simp [hb]
  · rw [searcherIsTextField, if_pos h]
    cases hb : (obj.enabled && (obj.visible || obj.showing)) <;> simp [hb]
  · intro ifs
    rw [isTextField, isTextField, if_pos h, if_pos h]
    unfold handleTerminal
    cases hb : (obj.enabled && obj.visible) <;> simp [hb]
  · intro q
    rw [isTextField, isTextField, if_pos h, if_pos h]
    unfold handleTerminal
    cases hb : (obj.enabled && obj.visible) <;> simp [hb]

/-- C4 counterexample: a terminal-role object that is enabled and showing but
    not visible should match under the claim (enabled AND (visible OR
    showing) is true), yet the core TextFieldManager rejects it. -/
theorem terminal_role_detection_cex :
    ¬ ((isTextField
        ⟨ROLE_TERMINAL, true, false, true, false, false, [], "term", [], []⟩).isSome =
      (true && (false || true))) := by decide

/-- Witness for terminal_role_detection: an enabled, visible terminal with zero
    recorded interfaces. -/
theorem terminal_role_detection_witness :
    (isTextField
      ⟨ROLE_TERMINAL, true, true, false, false, false, [], "term", [], []⟩).isSome =
      (true && true) :=
  (terminal_role_detection ⟨ROLE_TERMINAL, true, true, false, false, false, [], "term", [], []⟩ rfl).1

/-- Inductive invariant of the scheduler: the live timers are exactly the
    stored pending handle; at most one task exists between creation and its
    done callback; a cleared processing flag means no task anywhere; and all
    recorded ids are below the id counter. -/
def SchedInv (s : Sched) : Prop :=
  s.liveTimers = s.pendingTimer.toList ∧
  s.inFlight.length + s.pendingCbs.length ≤ 1 ∧
  (s.processing = false → s.inFlight = [] ∧ s.pendingCbs = []) ∧
  (∀ t, s.pendingTimer = some t → t < s.nextId) ∧
  (∀ p ∈ s.dispatched, p.1 < s.nextId) ∧
  (∀ n c, s.pendingContent = some (n, c) → n < s.nextId)

/-- Removing the stored timer empties the live-timer list whenever the
    invariant's timer component holds. -/
theorem cancelPendingTimer_eq_nil (s : Sched) (h : s.liveTimers = s.pendingTimer.toList) :
    cancelPendingTimer s = [] := by
  unfold cancelPendingTimer
  rw [h]
  cases s.pendingTimer <;> simp

theorem schedInv_init : SchedInv initSched := by
  refine ⟨rfl, ?_, ?_, ?_, ?_, ?_⟩ <;> simp [initSched]

theorem schedInv_debounce (s : Sched) (hs : SchedInv s) (c : String) (now : Int) :
    SchedInv (debouncePredictionRequest s c now) := by
  obtain ⟨h1, h2, h3, h4, h5, h6⟩ := hs
  have hct := cancelPendingTimer_eq_nil s h1
  unfold debouncePredictionRequest
  split
  · refine ⟨by simp [hct], h2, h3, by simp, ?_, ?_⟩
    · intro p hp
      exact Nat.lt_succ_of_lt (h5 p hp)
    · intro n c' hnc
      exact Nat.lt_succ_of_lt (h6 n c' hnc)
  · refine ⟨by simp [hct], h2, h3, ?_, ?_, ?_⟩
    · intro t ht
      simp at ht
      show t < s.nextId + 1
      omega
    · intro p hp
      exact Nat.lt_succ_of_lt (h5 p hp)
    · intro n c' hnc
      simp at hnc
      show n < s.nextId + 1
      omega

theorem schedInv_timerFires (s : Sched) (hs : SchedInv s) (now : Int) :
    SchedInv (onTimerFires s now) := by
  obtain ⟨h1, h2, h3, h4, h5, h6⟩ := hs
  unfold onTimerFires
  split
  · exact ⟨h1, h2, h3, h4, h5, h6⟩
  · rename_i t rest hlt
    have hrest : rest = [] := by
      rw [hlt] at h1
      cases hp : s.pendingTimer <;> rw [hp] at h1 <;> simp at h1
      exact h1.2
    unfold executePredictionRequest
    split
    · exact ⟨by simp [hrest], h2, h3, by simp, h5, h6⟩
    · rename_i n content hpc
      split
      · exact ⟨by simp [hrest], h2, h3, by simp, h5, h6⟩
      · split
        · exact ⟨by simp [hrest], h2, h3, by simp, h5, by simp⟩
        · rename_i hcne hproc
          have hnil := h3 (by simpa using hproc)
          refine ⟨by simp [hrest], ?_, by simp, by simp, ?_, by simp⟩
          · simp [hnil.1, hnil.2]
          · intro p hp
            simp at hp
            rcases hp with rfl | hp
            · have := h6 n content hpc
              show n < s.nextId + 1
              omega
            · have := h5 p hp
              show p.1 < s.nextId + 1
              omega

theorem schedInv_taskCompletes (s : Sched) (hs : SchedInv s) (oc : TaskOutcome) :
    SchedInv (onTaskCompletes s oc) := by
  obtain ⟨h1, h2, h3, h4, h5, h6⟩ := hs
  unfold onTaskCompletes
  split
  · exact ⟨h1, h2, h3, h4, h5, h6⟩
  · rename_i p rest hin
    have hproc : s.processing = true := by
      cases hp : s.processing
      · have := (h3 hp).1
        rw [hin] at this
        simp at this
      · rfl
    have hlen : rest.length + (s.pendingCbs.length + 1) ≤ 1 := by
      rw [hin] at h2
      simp at h2
      omega
    have hvac : ∀ s' : Sched, s'.processing = s.processing → s'.inFlight = rest →
        (s'.processing = false → s'.inFlight = [] ∧ s'.pendingCbs = []) := by
      intro s' hp _ hfalse
      rw [hp, hproc] at hfalse
      exact absurd hfalse (by simp)
    split
    · split
      · exact ⟨h1, by simpa using hlen, hvac _ rfl rfl, h4, h5, h6⟩
      · exact ⟨h1, by simpa using hlen, hvac _ rfl rfl, h4, h5, h6⟩
    · exact ⟨h1, by simpa using hlen, hvac _ rfl rfl, h4, h5, h6⟩

theorem schedInv_doneCallback (s : Sched) (hs : SchedInv s) :
    SchedInv (onDoneCallback s) := by
  obtain ⟨h1, h2, h3, h4, h5, h6⟩ := hs
  unfold onDoneCallback
  split
  · exact ⟨h1, h2, h3, h4, h5, h6⟩
  · rename_i oc rest hcb
    have hnil : s.inFlight = [] ∧ rest = [] := by
      rw [hcb] at h2
      simp at h2
      constructor
      · exact List.length_eq_zero.mp (by omega)
      · exact List.length_eq_zero.mp (by omega)
    refine ⟨h1, ?_, ?_, h4, h5, h6⟩
    · simp [hnil.1, hnil.2]
    · intro _
      exact hnil

theorem schedInv_step (s : Sched) (hs : SchedInv s) (e : SchedEvent) :
    SchedInv (schedStep s e) := by
  cases e with
  | contentChanged text now => exact schedInv_debounce s hs text now
  | timerFires now => exact schedInv_timerFires s hs now
  | taskCompletes oc => exact schedInv_taskCompletes s hs oc
  | doneCallback => exact schedInv_doneCallback s hs

theorem schedInv_runFrom (s : Sched) (hs : SchedInv s) (evs : List SchedEvent) :
    SchedInv (schedRunFrom s evs) := by
  induction evs generalizing s with
  | nil => exact hs
  | cons e rest ih => exact ih (schedStep s e) (schedInv_step s hs e)

theorem schedInv_run (evs : List SchedEvent) : SchedInv (schedRun evs) :=
  schedInv_runFrom initSched schedInv_init evs

/-- C1: for every sequence of scheduler events under any simulated clock, at
    most one prediction task is in flight and at most one debounce timer is
    live at every observable instant; and a content change always removes the
    previously armed, unfired timer from the live set, so arming a new timer
    supersedes the old one. -/
theorem scheduler_single_flight (evs : List SchedEvent) :
    (schedRun evs).inFlight.length ≤ 1 ∧
    (schedRun evs).liveTimers.length ≤ 1 ∧
    (∀ t, (schedRun evs).pendingTimer = some t →
      ∀ text now,
        t ∉ (schedStep (schedRun evs) (SchedEvent.contentChanged text now)).liveTimers) := by
  obtain ⟨h1, h2, h3, h4, h5, h6⟩ := schedInv_run evs
  refine ⟨by omega, ?_, ?_⟩
  · rw [h1]
    cases (schedRun evs).pendingTimer <;> simp
  · intro t ht text now
    have htlt := h4 t ht
    have hct := cancelPendingTimer_eq_nil (schedRun evs) h1
    show t ∉ (debouncePredictionRequest (schedRun evs) text now).liveTimers
    unfold debouncePredictionRequest
    split
    · simp [hct]
    · simp [hct]
      omega

/-- Witness for scheduler_single_flight: after one content change the armed
    timer 0 is not live once a second change supersedes it. -/
theorem scheduler_single_flight_witness :
    (0 : Nat) ∉ (schedStep (schedRun [SchedEvent.contentChanged "abc" 0])
      (SchedEvent.contentChanged "abcd" 5)).liveTimers :=
  (scheduler_single_flight [SchedEvent.contentChanged "abc" 0]).2.2 0 (by decide) "abcd" 5

/-- A sequence id is retired in a state when it is below the counter, is not
    the id of the stored pending content, and appears in no dispatch.  Retired
    ids never come back. -/
def IdRetired (id : Nat) (s : Sched) : Prop :=
  (∀ c, s.pendingContent ≠ some (id, c)) ∧
  (∀ p ∈ s.dispatched, p.1 ≠ id) ∧
  id < s.nextId

theorem idRetired_debounce (id : Nat) (s : Sched) (h : IdRetired id s)
    (c : String) (now : Int) : IdRetired id (debouncePredictionRequest s c now) := by
  obtain ⟨hp, hd, hn⟩ := h
  unfold debouncePredictionRequest
  split
  · exact ⟨hp, hd, Nat.lt_succ_of_lt hn⟩
  · refine ⟨?_, hd, Nat.lt_succ_of_lt hn⟩
    intro c' hc
    simp at hc
    omega

theorem idRetired_timerFires (id : Nat) (s : Sched) (h : IdRetired id s)
    (now : Int) : IdRetired id (onTimerFires s now) := by
  obtain ⟨hp, hd, hn⟩ := h
  unfold onTimerFires
  split
  · exact ⟨hp, hd, hn⟩
  · unfold executePredictionRequest
    split
    · exact ⟨hp, hd, hn⟩
    · rename_i n content hpc
      split
      · exact ⟨hp, hd, hn⟩
      · split
        · exact ⟨by simp, hd, hn⟩
        · refine ⟨by simp, ?_, Nat.lt_succ_of_lt hn⟩
          intro p hmem
          simp at hmem
          rcases hmem with rfl | hmem
          · show n ≠ id
            intro he
            rw [he] at hpc
            exact hp content hpc
          · exact hd p hmem

theorem idRetired_taskCompletes (id : Nat) (s : Sched) (h : IdRetired id s)
    (oc : TaskOutcome) : IdRetired id (onTaskCompletes s oc) := by
  obtain ⟨hp, hd, hn⟩ := h
  unfold onTaskCompletes
  split
  · exact ⟨hp, hd, hn⟩
  · split
    · split
      · exact ⟨hp, hd, hn⟩
      · exact ⟨hp, hd, hn⟩
    · exact ⟨hp, hd, hn⟩

theorem idRetired_doneCallback (id : Nat) (s : Sched) (h : IdRetired id s) :
    IdRetired id (onDoneCallback s) := by
  obtain ⟨hp, hd, hn⟩ := h
  unfold onDoneCallback
  split
  · exact ⟨hp, hd, hn⟩
  · exact ⟨hp, hd, hn⟩

theorem idRetired_step (id : Nat) (s : Sched) (h : IdRetired id s)
    (e : SchedEvent) : IdRetired id (schedStep s e) := by
  cases e with
  | contentChanged text now => exact idRetired_debounce id s h text now
  | timerFires now => exact idRetired_timerFires id s h now
  | taskCompletes oc => exact idRetired_taskCompletes id s h oc
  | doneCallback => exact idRetired_doneCallback id s h

theorem idRetired_runFrom (id : Nat) (s : Sched) (h : IdRetired id s)
    (evs : List SchedEvent) : IdRetired id (schedRunFrom s evs) := by
  induction evs generalizing s with
  | nil => exact h
  | cons e rest ih => exact ih (schedStep s e) (idRetired_step id s h e)

/-- A content change never dispatches anything. -/
theorem debounce_dispatched (s : Sched) (c : String) (now : Int) :
    (debouncePredictionRequest s c now).dispatched = s.dispatched := by
  unfold debouncePredictionRequest
  split <;> rfl

/-- A content change arriving while the guard blocks it: timer cancelled,
    nothing stored. -/
theorem debounce_blocked (s : Sched) (c : String) (now : Int)
    (hb : (taskStillRunning s && s.processing) = true) :
    debouncePredictionRequest s c now =
      { s with
        liveTimers := cancelPendingTimer s,
        pendingTimer := none,
        nextId := s.nextId + 1 } := by
  unfold debouncePredictionRequest
  split
  · rfl
  · rename_i h
    exact absurd hb h

/-- A content change accepted by the guard: the old timer is cancelled and the
    content is stored under a fresh arming id. -/
theorem debounce_unblocked (s : Sched) (c : String) (now : Int)
    (hb : (taskStillRunning s && s.processing) = false) :
    debouncePredictionRequest s c now =
      { s with
        liveTimers := s.nextId :: cancelPendingTimer s,
        pendingTimer := some s.nextId,
        pendingContent := some (s.nextId, c),
        nextId := s.nextId + 1 } := by
  unfold debouncePredictionRequest
  split
  · rename_i h
    exact Bool.noConfusion (hb.symm.trans h)
  · rfl

/-- The debounce guard (unfinished current task and processing) is untouched by
    a content change itself. -/
theorem debounce_guard (s : Sched) (c : String) (now : Int) :
    (taskStillRunning (debouncePredictionRequest s c now) &&
      (debouncePredictionRequest s c now).processing) =
    (taskStillRunning s && s.processing) := by
  cases hb : (taskStillRunning s && s.processing)
  · rw [debounce_unblocked s c now hb]
    exact hb
  · rw [debounce_blocked s c now hb]
    exact hb

/-- The ghost sequence id consumed by the first of two back-to-back content
    changes is retired by the second one. -/
theorem firstChange_retired (s : Sched) (hs : SchedInv s) (c1 c2 : String) (t1 t2 : Int) :
    IdRetired s.nextId
      (debouncePredictionRequest (debouncePredictionRequest s c1 t1) c2 t2) := by
  obtain ⟨h1, h2, h3, h4, h5, h6⟩ := hs
  cases hb : (taskStillRunning s && s.processing) with
  | true =>
    have hb2 : (taskStillRunning (debouncePredictionRequest s c1 t1) &&
        (debouncePredictionRequest s c1 t1).processing) = true := by
      rw [debounce_guard]
      exact hb
    rw [debounce_blocked _ c2 t2 hb2, debounce_blocked s c1 t1 hb]
    refine ⟨?_, ?_, ?_⟩
    · intro c hc
      have := h6 s.nextId c hc
      omega
    · intro p hp
      have := h5 p hp
      omega
    · show s.nextId < s.nextId + 1 + 1
      omega
  | false =>
    have hb2 : (taskStillRunning (debouncePredictionRequest s c1 t1) &&
        (debouncePredictionRequest s c1 t1).processing) = false := by
      rw [debounce_guard]
      exact hb
    rw [debounce_unblocked _ c2 t2 hb2, debounce_unblocked s c1 t1 hb]
    refine ⟨?_, ?_, ?_⟩
    · intro c hc
      simp at hc
    · intro p hp
      have := h5 p hp
      omega
    · show s.nextId < s.nextId + 1 + 1
      omega

/-- C2: for two content changes with no event in between, the second arriving
    less than debounce_delay after the first, nothing is dispatched while the
    two changes are handled, and no later event ever dispatches the first
    change's request: of the two, only the later content can ever reach the
    prediction policy. -/
theorem debounce_drops_earlier (evs : List SchedEvent) (c1 c2 : String) (t1 t2 : Int)
    (hlt : t2 - t1 < debounceDelayMs) (evs2 : List SchedEvent) :
    (schedStep (schedStep (schedRun evs) (SchedEvent.contentChanged c1 t1))
        (SchedEvent.contentChanged c2 t2)).dispatched = (schedRun evs).dispatched ∧
    ((schedRunFrom
        (schedStep (schedStep (schedRun evs) (SchedEvent.contentChanged c1 t1))
          (SchedEvent.contentChanged c2 t2)) evs2).dispatched.all
      (fun p => p.1 != (schedRun evs).nextId)) = true := by
  constructor
  · show (debouncePredictionRequest
        (debouncePredictionRequest (schedRun evs) c1 t1) c2 t2).dispatched = _
    rw [debounce_dispatched, debounce_dispatched]
  · have hr := firstChange_retired (schedRun evs) (schedInv_run evs) c1 c2 t1 t2
    have hr2 := idRetired_runFrom (schedRun evs).nextId _ hr evs2
    obtain ⟨_, hd, _⟩ := hr2
    rw [List.all_eq_true]
    intro p hp
    exact bne_iff_ne.mpr (hd p hp)

/-- Witness for debounce_drops_earlier: two changes 100 ms apart followed by a
    timer fire dispatch nothing carrying the first change's id. -/
theorem debounce_drops_earlier_witness :
    ((schedRunFrom
        (schedStep (schedStep (schedRun []) (SchedEvent.contentChanged "hel" 0))
          (SchedEvent.contentChanged "hell" 100)) [SchedEvent.timerFires 150]).dispatched.all
      (fun p => p.1 != (schedRun []).nextId)) = true :=
  (debounce_drops_earlier [] "hel" "hell" 0 100 (by decide) [SchedEvent.timerFires 150]).2

/-- C7 (amended): when the debounce timer fires while the processing flag of a
    previous request is still set (possible once that task has finished but its
    done callback has not yet run), the pending content is dropped, the timer
    handle is cleared, and no new request is dispatched; processing, the task
    state and the dispatch/delivery traces are unchanged, but last_request_time
    is set to the fire time. -/
theorem timer_fire_while_processing (s : Sched) (now : Int) (t n : Nat) (c : String)
    (h1 : s.liveTimers = [t]) (h2 : s.processing = true)
    (h3 : s.pendingContent = some (n, c)) (h4 : c ≠ "") :
    schedStep s (SchedEvent.timerFires now) =
      { s with
        liveTimers := [],
        pendingTimer := none,
        pendingContent := none,
        lastRequestTime := now } := by
  show onTimerFires s now = _
  unfold onTimerFires
  split
  · rename_i h
    rw [h1] at h
    exact absurd h (by simp)
  · rename_i head rest heq
    rw [h1] at heq
    injection heq with hh ht
    subst hh
    subst ht
    unfold executePredictionRequest
    split
    · rename_i hpc
      simp [h3] at hpc
    · rename_i n' c' hpc
      simp [h3] at hpc
      obtain ⟨rfl, rfl⟩ := hpc
      split
      · rename_i hce
        simp at hce
        exact absurd hce h4
      · rfl

/-- C7 counterexample: in the run content-change, fire, task-completes,
    content-change, the final timer fire is dropped (a prior prediction is
    still processing), yet last_request_time changes from 10 to 600: the claim
    that all other scheduler state is left unchanged is false. -/
theorem timer_fire_while_processing_cex :
    (schedStep (schedRun [SchedEvent.contentChanged "abc" 0, SchedEvent.timerFires 10,
        SchedEvent.taskCompletes (TaskOutcome.success none), SchedEvent.contentChanged "xyz" 500])
      (SchedEvent.timerFires 600)).lastRequestTime ≠
    (schedRun [SchedEvent.contentChanged "abc" 0, SchedEvent.timerFires 10,
        SchedEvent.taskCompletes (TaskOutcome.success none), SchedEvent.contentChanged "xyz" 500]).lastRequestTime ∧
    (schedRun [SchedEvent.contentChanged "abc" 0, SchedEvent.timerFires 10,
        SchedEvent.taskCompletes (TaskOutcome.success none), SchedEvent.contentChanged "xyz" 500]).processing = true ∧
    (schedStep (schedRun [SchedEvent.contentChanged "abc" 0, SchedEvent.timerFires 10,
        SchedEvent.taskCompletes (TaskOutcome.success none), SchedEvent.contentChanged "xyz" 500])
      (SchedEvent.timerFires 600)).dispatched =
    (schedRun [SchedEvent.contentChanged "abc" 0, SchedEvent.timerFires 10,
        SchedEvent.taskCompletes (TaskOutcome.success none), SchedEvent.contentChanged "xyz" 500]).dispatched := by
  refine ⟨by decide, by decide, by decide⟩

/-- Witness for timer_fire_while_processing at the same concrete run. -/
theorem timer_fire_while_processing_witness :
    schedStep (schedRun [SchedEvent.contentChanged "abc" 0, SchedEvent.timerFires 10,
        SchedEvent.taskCompletes (TaskOutcome.success none), SchedEvent.contentChanged "xyz" 500])
      (SchedEvent.timerFires 600) =
      { schedRun [SchedEvent.contentChanged "abc" 0, SchedEvent.timerFires 10,
          SchedEvent.taskCompletes (TaskOutcome.success none), SchedEvent.contentChanged "xyz" 500] with
        liveTimers := [],
        pendingTimer := none,
        pendingContent := none,
        lastRequestTime := 600 } :=
  timer_fire_while_processing _ 600 2 2 "xyz" (by decide) (by decide) (by decide) (by decide)

/-- C8: cancelling the in-flight prediction task delivers nothing to the
    overlay, is not logged as an error, clears the processing flag once the
    done callback runs, and the next content change is accepted: it stores the
    new content and arms a fresh debounce timer. -/
theorem cancellation_unwinds (s : Sched) (tid : Nat) (c : String)
    (h1 : s.inFlight = [(tid, c)]) (h2 : s.pendingCbs = []) :
    (schedStep (schedStep s (SchedEvent.taskCompletes TaskOutcome.cancelled))
      SchedEvent.doneCallback).delivered = s.delivered ∧
    (schedStep (schedStep s (SchedEvent.taskCompletes TaskOutcome.cancelled))
      SchedEvent.doneCallback).errorsLogged = s.errorsLogged ∧
    (schedStep (schedStep s (SchedEvent.taskCompletes TaskOutcome.cancelled))
      SchedEvent.doneCallback).processing = false ∧
    (∀ text now,
      (schedStep (schedStep (schedStep s (SchedEvent.taskCompletes TaskOutcome.cancelled))
        SchedEvent.doneCallback) (SchedEvent.contentChanged text now)).pendingContent =
      some ((schedStep (schedStep s (SchedEvent.taskCompletes TaskOutcome.cancelled))
        SchedEvent.doneCallback).nextId, text) ∧
      (schedStep (schedStep (schedStep s (SchedEvent.taskCompletes TaskOutcome.cancelled))
        SchedEvent.doneCallback) (SchedEvent.contentChanged text now)).pendingTimer =
      some ((schedStep (schedStep s (SchedEvent.taskCompletes TaskOutcome.cancelled))
        SchedEvent.doneCallback).nextId)) := by
  have e1 : schedStep s (SchedEvent.taskCompletes TaskOutcome.cancelled) =
      { s with inFlight := [], pendingCbs := s.pendingCbs ++ [TaskOutcome.cancelled] } := by
    simp only [schedStep]
    unfold onTaskCompletes
    split
    · rename_i h
      rw [h1] at h
      exact absurd h (by simp)
    · rename_i p rest h
      rw [h1] at h
      injection h with hp hr
      rw [← hr]
  have e2 : schedStep (schedStep s (SchedEvent.taskCompletes TaskOutcome.cancelled))
      SchedEvent.doneCallback =
      { s with inFlight := [], pendingCbs := [], processing := false } := by
    rw [e1, h2]
    simp only [schedStep]
    unfold onDoneCallback
    simp
  rw [e2]
  refine ⟨rfl, rfl, rfl, ?_⟩
  intro text now
  simp only [schedStep]
  have hb : (taskStillRunning
        { s with inFlight := [], pendingCbs := [], processing := false } &&
      ({ s with inFlight := [], pendingCbs := [], processing := false } : Sched).processing) =
      false := by
    simp
  rw [debounce_unblocked _ text now hb]
  exact ⟨rfl, rfl⟩

/-- Witness for cancellation_unwinds: after one dispatched request is
    cancelled and its callback runs, processing is clear. -/
theorem cancellation_unwinds_witness :
    (schedStep (schedStep (schedRun [SchedEvent.contentChanged "abc" 0, SchedEvent.timerFires 10])
        (SchedEvent.taskCompletes TaskOutcome.cancelled))
      SchedEvent.doneCallback).processing = false :=
  (cancellation_unwinds (schedRun [SchedEvent.contentChanged "abc" 0, SchedEvent.timerFires 10])
    1 "abc" (by decide) (by decide)).2.2.1
